import Mathlib

/-!
# Verification of the pro_sante load pipeline

Shallow embedding of the core of the med_demo pipeline
(staging_loader.py, dims_loader.py, facts_loader.py, ops_logger.py,
pipeline_runner.py).  The relational store is modelled as explicit Lean
state (lists of rows); SQL statements become pure functions on that
state; a statement that would make the engine raise (e.g. an invalid
integer cast, or an ON CONFLICT DO UPDATE hitting the same row twice)
returns an error through Except, and the surrounding transaction is
modelled as leaving the table unchanged in that case.
-/

namespace MedDemo

/-! ## Staging data model (staging_loader.py, COLS) -/

/-- One row of the durable staging table pro_sante.stg_pro_sante_raw,
with the 14 columns of COLS.  annee is nullable (Int64 in pandas);
effectif and densite are nullable numerics (floats are carried as
rationals, their values are inert payload for the load logic). -/
structure StagingRow where
  annee : Option Int
  profession_sante : String
  region : String
  libelle_region : String
  departement : String
  libelle_departement : String
  classe_age : String
  libelle_classe_age : String
  libelle_sexe : String
  effectif : Option Rat
  densite : Option Rat
  vision_generale_all : String
  vision_generale_prescriptions : String
  vision_profession_territoire : String
deriving DecidableEq

/-- The natural key of the staging table: the column list of the
ON CONFLICT clause of upsert_to_staging
(annee, region, departement, profession_sante, classe_age, libelle_sexe). -/
structure StagingKey where
  annee : Option Int
  region : String
  departement : String
  profession_sante : String
  classe_age : String
  libelle_sexe : String
deriving DecidableEq

def StagingRow.key (r : StagingRow) : StagingKey :=
  ⟨r.annee, r.region, r.departement, r.profession_sante, r.classe_age, r.libelle_sexe⟩

/-! ## Staging Store upsert (staging_loader.upsert_to_staging) -/

/-- Effect of one source row of the INSERT ... ON CONFLICT ... DO UPDATE
statement on the durable staging table: on a natural-key conflict the
existing row keeps all its columns except effectif and densite, which
are overwritten by the excluded row; otherwise the row is inserted. -/
def upsertRow (t : List StagingRow) (r : StagingRow) : List StagingRow :=
  if t.any (fun x => x.key = r.key) then
    t.map (fun x =>
      if x.key = r.key then
        { x with effectif := r.effectif, densite := r.densite }
      else x)
  else t ++ [r]

/-- The store statements upsert_to_staging executes, in order. -/
inductive StoreStmt where
  | createTempTable : StoreStmt
  | copyToTemp (nrows : Nat) : StoreStmt
  | upsertIntoStaging : StoreStmt
deriving DecidableEq

/-- staging_loader.upsert_to_staging: early-returns on an empty batch,
otherwise COPYs the batch to a temp table and upserts the rows whose
annee equals the target year into the durable staging table.  If two
source rows collide on the natural key, the engine refuses the
ON CONFLICT DO UPDATE; the transaction then commits nothing. -/
def upsert_to_staging (table : List StagingRow) (df : List StagingRow) (year : Int) :
    Except String (List StagingRow × List StoreStmt) :=
  if df.isEmpty then
    .ok (table, [])
  else
    let rows := df.filter (fun r => r.annee = some year)
    if (rows.map StagingRow.key).Nodup then
      .ok (rows.foldl upsertRow table,
        [.createTempTable, .copyToTemp df.length, .upsertIntoStaging])
    else
      .error "ON CONFLICT DO UPDATE command cannot affect row a second time"

/-- The durable staging table after one call of upsert_to_staging: the
upserted table on success, the unchanged table when the transaction was
rolled back by a store error. -/
def runUpsertStaging (table : List StagingRow) (df : List StagingRow) (year : Int) :
    List StagingRow :=
  match upsert_to_staging table df year with
  | .ok (t, _) => t
  | .error _ => table

/-! ## Department id derivation (dims_loader.py / facts_loader.py) -/

/-- Decimal value of a digit list (the engine's cast of an all-digit text). -/
def digitsToNat (l : List Char) : Nat :=
  l.foldl (fun a c => a * 10 + (c.toNat - 48)) 0

/-- The regex '^[0-9]+$' of dims_loader: nonempty, all characters digits. -/
def isAllDigits (l : List Char) : Bool :=
  !l.isEmpty && l.all (fun c => c.isDigit)

/-- The engine's text-to-integer cast (value::int): an optional sign
followed by at least one digit; anything else is a cast error (none). -/
def pgTextToInt (s : String) : Option Int :=
  match s.toList with
  | [] => none
  | c :: cs =>
    if c = '+' then (if isAllDigits cs then some (digitsToNat cs : Int) else none)
    else if c = '-' then (if isAllDigits cs then some (-(digitsToNat cs : Int)) else none)
    else if isAllDigits (c :: cs) then some (digitsToNat (c :: cs) : Int)
    else none

/-- dims_loader.populate_dimensions, department CTE n: the derived
surrogate department id.  CASE WHEN departement = '2A' THEN 101 WHEN
departement = '2B' THEN 102 WHEN departement ~ '^[0-9]+$' THEN
departement::int ELSE NULL END. -/
def dep_id_dims (code : String) : Option Int :=
  if code = "2A" then some 101
  else if code = "2B" then some 102
  else if isAllDigits code.toList then some (digitsToNat code.toList : Int)
  else none

/-- facts_loader.load_facts, dep_norm column: CASE WHEN departement =
'2A' THEN 101 WHEN departement = '2B' THEN 102 ELSE
NULLIF(departement,'')::int END.  The outer Option is the statement
outcome (none = the cast raised, aborting the transaction); the inner
Option is the SQL join-key value (none = NULL, joining nothing). -/
def dep_norm_facts (code : String) : Option (Option Int) :=
  if code = "2A" then some (some 101)
  else if code = "2B" then some (some 102)
  else if code = "" then some none
  else (pgTextToInt code).map some

/-! ## The shared staging filter (the WHERE clause of the CTE s) -/

/-- The staging filter of dims_loader.populate_dimensions: region <>
'99' AND departement <> '999' AND libelle_sexe IN ('hommes','femmes')
AND classe_age <> 'tout_age', plus, when a year is given, AND annee =
year (a NULL annee never equals the year). -/
def stagingFilterDims (year : Option Int) (r : StagingRow) : Bool :=
  r.region ≠ "99" && r.departement ≠ "999" &&
    (r.libelle_sexe = "hommes" || r.libelle_sexe = "femmes") &&
    r.classe_age ≠ "tout_age" &&
    (match year with
     | some y => r.annee = some y
     | none => true)

/-- The staging filter of facts_loader.load_facts: region <> '99' AND
departement <> '999' AND libelle_sexe IN ('hommes','femmes') AND
classe_age <> 'tout_age', plus, when a year is given, AND annee = year. -/
def stagingFilterFacts (year : Option Int) (r : StagingRow) : Bool :=
  r.region ≠ "99" && r.departement ≠ "999" &&
    (r.libelle_sexe = "hommes" || r.libelle_sexe = "femmes") &&
    r.classe_age ≠ "tout_age" &&
    (match year with
     | some y => r.annee = some y
     | none => true)

/-! ## Dimension tables (dims_loader.py) -/

/-- The six dimension tables.  Scalar dimensions carry a store-assigned
surrogate id next to their natural-key value; tranches_age carries
(id_tranche, classe_age, libelle_classe_age); departements carries
(id_departement, nom_departement, id_region) where id_departement is
the derived id, not store-assigned. -/
structure DimTables where
  annees : List (Nat × Option Int)
  professions : List (Nat × String)
  regions : List (Nat × String)
  genres : List (Nat × String)
  tranches : List (Nat × String × String)
  departements : List (Int × String × Nat)
deriving DecidableEq

/-- INSERT ... SELECT DISTINCT v ... ON CONFLICT (v) DO NOTHING: each
new distinct value is appended with a fresh store-assigned id, values
already present are left untouched. -/
def insertIgnore {α : Type} [DecidableEq α] (tbl : List (Nat × α)) (vals : List α) :
    List (Nat × α) :=
  vals.foldl (fun t v =>
    if t.any (fun p => p.2 = v) then t else t ++ [(t.length + 1, v)]) tbl

/-- tranches_age upsert: ON CONFLICT (classe_age) DO UPDATE SET
libelle_classe_age = EXCLUDED.libelle_classe_age.  Two distinct source
pairs sharing a classe_age would make ON CONFLICT DO UPDATE hit one
row twice: the engine raises and the transaction is rolled back. -/
def upsertTranches (tbl : List (Nat × String × String)) (vals : List (String × String)) :
    Except String (List (Nat × String × String)) :=
  if (vals.map Prod.fst).Nodup then
    .ok (vals.foldl (fun t v =>
      if t.any (fun p => p.2.1 = v.1) then
        t.map (fun p => if p.2.1 = v.1 then (p.1, v.1, v.2) else p)
      else t ++ [(t.length + 1, v.1, v.2)]) tbl)
  else
    .error "ON CONFLICT DO UPDATE command cannot affect row a second time"

/-- Effect of one source row of the departements upsert: overwrite
nom_departement and id_region on an id_departement conflict, insert
otherwise. -/
def upsertDeptRow (t : List (Int × String × Nat)) (v : Int × String × Nat) :
    List (Int × String × Nat) :=
  if t.any (fun p => p.1 = v.1) then
    t.map (fun p => if p.1 = v.1 then v else p)
  else t ++ [v]

/-- departements upsert: ON CONFLICT (id_departement) DO UPDATE SET
nom_departement = EXCLUDED.nom_departement, id_region =
EXCLUDED.id_region; duplicate derived ids in the source raise. -/
def upsertDepts (tbl : List (Int × String × Nat)) (vals : List (Int × String × Nat)) :
    Except String (List (Int × String × Nat)) :=
  if (vals.map Prod.fst).Nodup then
    .ok (vals.foldl upsertDeptRow tbl)
  else
    .error "ON CONFLICT DO UPDATE command cannot affect row a second time"

/-- The regions table as the departements statement of the same
transaction sees it: the incoming table plus the distinct filtered
libelle_region values (the regions INSERT runs earlier in the run). -/
def dimRegionsAfter (year : Option Int) (staging : List StagingRow) (d : DimTables) :
    List (Nat × String) :=
  insertIgnore d.regions ((staging.filter (stagingFilterDims year)).map
    (fun r => r.libelle_region)).dedup

/-- The SELECT DISTINCT feeding the departements upsert: derive each
filtered row's department id (CTE n), inner-join the regions table on
libelle_region, drop the rows whose derived id is NULL, and take the
distinct (id_departement, nom_departement, id_region) triples. -/
def deptSourceRows (year : Option Int) (staging : List StagingRow) (d : DimTables) :
    List (Int × String × Nat) :=
  (((staging.filter (stagingFilterDims year)).map
      (fun r => (dep_id_dims r.departement, r.libelle_departement, r.libelle_region))).filterMap
    (fun v => do
      let i ← v.1
      let reg ← (dimRegionsAfter year staging d).find? (fun p => p.2 = v.2.2)
      pure (i, v.2.1, reg.1))).dedup

/-- dims_loader.populate_dimensions: filters staging by the shared
predicate, then upserts the six dimensions in dependency order (annees,
professions, regions, genres, tranches_age, then departements, whose
region reference is resolved by joining the regions table as updated in
this same transaction).  Rows whose derived department id is NULL, and
rows whose libelle_region finds no match in regions, are excluded from
the departements upsert.  A store error anywhere rolls the whole
transaction back. -/
def populate_dimensions (year : Option Int) (staging : List StagingRow) (d : DimTables) :
    Except String DimTables := do
  let s := staging.filter (stagingFilterDims year)
  let tranches ← upsertTranches d.tranches
    (s.map (fun r => (r.classe_age, r.libelle_classe_age))).dedup
  let departements ← upsertDepts d.departements (deptSourceRows year staging d)
  pure ⟨insertIgnore d.annees (s.map (fun r => r.annee)).dedup,
        insertIgnore d.professions (s.map (fun r => r.profession_sante)).dedup,
        dimRegionsAfter year staging d,
        insertIgnore d.genres (s.map (fun r => r.libelle_sexe)).dedup,
        tranches, departements⟩

/-- The dimension tables after one call of populate_dimensions (a store
error rolls the transaction back, leaving the tables unchanged). -/
def runPopulateDimensions (year : Option Int) (staging : List StagingRow) (d : DimTables) :
    DimTables :=
  match populate_dimensions year staging d with
  | .ok d2 => d2
  | .error _ => d

/-! ## Fact table (facts_loader.py) -/

/-- One row of pro_sante.table_faits_pro_v2.  The composite key is the
six surrogate references; effectif is cast to int, densite to double
precision at load time. -/
structure FactRow where
  id_annee : Nat
  id_profession : Nat
  id_region : Nat
  id_departement : Int
  id_tranche : Nat
  id_genre : Nat
  effectif : Option Int
  densite : Option Rat
deriving DecidableEq

/-- The six-surrogate composite key (the ON CONFLICT column list). -/
def FactRow.key (f : FactRow) : Nat × Nat × Nat × Int × Nat × Nat :=
  (f.id_annee, f.id_profession, f.id_region, f.id_departement, f.id_tranche, f.id_genre)

/-- The engine's double-to-int cast, rounding to the nearest integer
(tie behaviour is an engine detail no claim depends on). -/
def pgRoundToInt (q : Rat) : Int := ⌊q + (1 : Rat) / 2⌋

/-- The six inner joins of facts_loader.load_facts, for one filtered
staging row whose dep_norm key is k: resolve each of the six surrogate
ids; any failed join drops the row (inner-join semantics). -/
def resolveFact (d : DimTables) (r : StagingRow) (k : Option Int) : Option FactRow := do
  let a ← d.annees.find? (fun p => p.2 = r.annee)
  let p ← d.professions.find? (fun p => p.2 = r.profession_sante)
  let rg ← d.regions.find? (fun p => p.2 = r.libelle_region)
  let dp ← k.bind (fun i => d.departements.find? (fun p => p.1 = i))
  let t ← d.tranches.find? (fun p => p.2.1 = r.classe_age)
  let g ← d.genres.find? (fun p => p.2 = r.libelle_sexe)
  pure ⟨a.1, p.1, rg.1, dp.1, t.1, g.1, r.effectif.map pgRoundToInt, r.densite⟩

/-- One source row of the fact upsert: overwrite effectif/densite on a
six-key conflict, insert otherwise. -/
def upsertFactRow (t : List FactRow) (f : FactRow) : List FactRow :=
  if t.any (fun x => x.key = f.key) then
    t.map (fun x =>
      if x.key = f.key then { x with effectif := f.effectif, densite := f.densite } else x)
  else t ++ [f]

/-- facts_loader.load_facts: filter staging by the shared predicate,
compute dep_norm for every filtered row (a cast error aborts the whole
statement), resolve the six dimension joins, and upsert the joined rows
into the fact table keyed by the six surrogate references. -/
def load_facts (year : Option Int) (staging : List StagingRow) (d : DimTables)
    (facts : List FactRow) : Except String (List FactRow) :=
  let s := staging.filter (stagingFilterFacts year)
  match s.mapM (fun r => dep_norm_facts r.departement) with
  | none => .error "invalid input for type integer"
  | some keys =>
    let j := (s.zip keys).filterMap (fun rk => resolveFact d rk.1 rk.2)
    if (j.map FactRow.key).Nodup then
      .ok (j.foldl upsertFactRow facts)
    else
      .error "ON CONFLICT DO UPDATE command cannot affect row a second time"

/-! ## Run/Volume Recorder (ops_logger.py) -/

/-- A calendar date (year, month, day), used for as_of_date values. -/
structure DateV where
  year : Int
  month : Nat
  day : Nat
deriving DecidableEq

/-- The natural key of ops.volumes: (pipeline, entity, as_of_date,
agg_window). -/
structure VolumeKey where
  pipeline : String
  entity : String
  as_of_date : DateV
  agg_window : String
deriving DecidableEq

/-- One row of ops.volumes. -/
structure VolumeRow where
  key : VolumeKey
  volume : Int
  expected_min : Option Int
  expected_max : Option Int
  extra : String
deriving DecidableEq

/-- ops_logger.log_volume: INSERT ... ON CONFLICT (pipeline, entity,
as_of_date, agg_window) DO UPDATE SET volume = EXCLUDED.volume,
expected_min = COALESCE(EXCLUDED.expected_min, ops.volumes.expected_min),
expected_max = COALESCE(EXCLUDED.expected_max, ops.volumes.expected_max),
extra = COALESCE(EXCLUDED.extra, ops.volumes.extra).  The extra payload
is json.dumps of the extra dict (or of the empty dict), hence never
NULL, so its COALESCE always takes the excluded value. -/
def log_volume (tbl : List VolumeRow) (pipeline entity : String) (as_of_date : DateV)
    (volume : Int) (expected_min expected_max : Option Int) (agg_window : String)
    (extraJson : String) : List VolumeRow :=
  let k : VolumeKey := ⟨pipeline, entity, as_of_date, agg_window⟩
  if tbl.any (fun r => r.key = k) then
    tbl.map (fun r =>
      if r.key = k then
        { r with
          volume := volume,
          expected_min := match expected_min with
            | some v => some v
            | none => r.expected_min,
          expected_max := match expected_max with
            | some v => some v
            | none => r.expected_max,
          extra := extraJson }
      else r)
  else tbl ++ [⟨k, volume, expected_min, expected_max, extraJson⟩]

/-- One row of ops.run_log (the generated run_id, timestamps and
duration are omitted: no claim depends on them). -/
structure RunRecord where
  pipeline : String
  component : String
  status : String
  rows_written : Option Int
  message : Option String
deriving DecidableEq

/-- ops_logger.log_run: always a plain INSERT of a fresh row. -/
def log_run (tbl : List RunRecord) (rec : RunRecord) : List RunRecord :=
  tbl ++ [rec]

/-! ## Orchestrator (pipeline_runner.py) -/

/-- Outcome of executing a Python callable's body once. -/
inductive PyOutcome where
  | ok : PyOutcome
  | typeError : PyOutcome
  | otherError : PyOutcome
deriving DecidableEq

/-- A propagated Python exception. -/
inductive PyErr where
  | typeError : PyErr
  | otherError : PyErr
deriving DecidableEq

/-- The signature shapes a step module's main can have: def main(year),
def main(year=default), or def main(). -/
inductive MainArity where
  | requiresArg : MainArity
  | optionalArg : MainArity
  | noArg : MainArity
deriving DecidableEq

/-- A step module's main: its arity, and the behaviour of its body as a
function of the year value bound to the parameter (none when the body
runs with the parameter unbound / at its default). -/
structure PyMain where
  arity : MainArity
  body : Option Int → PyOutcome

/-- The result of calling the body once, as the dispatcher's outcome. -/
def outcomeResult (o : PyOutcome) : Except PyErr Unit :=
  match o with
  | .ok => .ok ()
  | .typeError => .error .typeError
  | .otherError => .error .otherError

/-- pipeline_runner._call_module_main: try main_fn(year); on TypeError,
fall back to main_fn().  The first component lists the argument of each
actual execution of the body, in order; the second is the propagated
outcome.  A def main() rejects the positional year at call time (body
not run) and the fallback runs the body once; a def main(year) whose
body raises TypeError is caught, but the zero-argument fallback then
fails at call time; a def main(year=default) whose body raises
TypeError is caught and the fallback executes the body a second time. -/
def call_module_main (m : PyMain) (year : Int) : List (Option Int) × Except PyErr Unit :=
  match m.arity with
  | .noArg => ([none], outcomeResult (m.body none))
  | .requiresArg =>
    match m.body (some year) with
    | .ok => ([some year], .ok ())
    | .typeError => ([some year], .error .typeError)
    | .otherError => ([some year], .error .otherError)
  | .optionalArg =>
    match m.body (some year) with
    | .ok => ([some year], .ok ())
    | .typeError => ([some year, none], outcomeResult (m.body none))
    | .otherError => ([some year], .error .otherError)

/-- pipeline_runner._run_step, given the outcome of the step's callable
(the raised exception rendered as its message string): status starts
"OK", the except branch flips it to "KO" and keeps the message, the
finally branch always emits exactly one run record, and the exception
is re-raised only under stop_on_fail. -/
def run_step (runLog : List RunRecord) (title : String) (outcome : Except String Unit)
    (stop_on_fail : Bool) : List RunRecord × Except String Unit :=
  match outcome with
  | .ok _ =>
    (log_run runLog ⟨"pro_sante", title, "OK", none, none⟩, .ok ())
  | .error e =>
    (log_run runLog ⟨"pro_sante", title, "KO", none, some e⟩,
     if stop_on_fail then .error e else .ok ())

/-! ## Row Normalizer (staging_loader.prepare_dataframe) -/

/-- The annee cell of one raw row, represented by the outcome of the
two pandas coercions that can be applied to it: dateYear is the year
component when pd.to_datetime parses the value (none when it yields
NaT), numValue is the Int64 value when pd.to_numeric parses it. -/
structure YearCell where
  dateYear : Option Int
  numValue : Option Int
deriving DecidableEq

/-- A numeric cell (effectif / densite), represented by the value
pd.to_numeric gives it (none when coercion fails). -/
structure NumCell where
  numValue : Option Rat
deriving DecidableEq

/-- One raw row after column alignment on COLS (missing columns have
already been synthesized). -/
structure RawRow where
  annee : YearCell
  profession_sante : String
  region : String
  libelle_region : String
  departement : String
  libelle_departement : String
  classe_age : String
  libelle_classe_age : String
  libelle_sexe : String
  effectif : NumCell
  densite : NumCell
  vision_generale_all : String
  vision_generale_prescriptions : String
  vision_profession_territoire : String
deriving DecidableEq

/-- Assemble the staging row for a raw row whose coerced annee is a:
effectif and densite are cast with pd.to_numeric(errors="coerce"). -/
def toStagingRow (r : RawRow) (a : Option Int) : StagingRow :=
  ⟨a, r.profession_sante, r.region, r.libelle_region, r.departement,
   r.libelle_departement, r.classe_age, r.libelle_classe_age, r.libelle_sexe,
   r.effectif.numValue, r.densite.numValue,
   r.vision_generale_all, r.vision_generale_prescriptions,
   r.vision_profession_territoire⟩

/-- staging_loader.prepare_dataframe, after column alignment: normalize
the annee column — pd.to_datetime over the whole column first, and if
any value parsed as a date (a_dt.notna().any()) take every value's year
component, otherwise pd.to_numeric over the whole column — then keep
only the rows whose coerced annee equals the target year (a null annee
never does), then cast effectif and densite.  (The defensive fallback
for a to_datetime exception repeats the to_numeric branch and is not
modelled separately.) -/
def prepare_dataframe (rows : List RawRow) (year : Int) : List StagingRow :=
  let dateMode := (rows.map (fun r => r.annee.dateYear)).any Option.isSome
  let annees : List (Option Int) :=
    if dateMode then rows.map (fun r => r.annee.dateYear)
    else rows.map (fun r => r.annee.numValue)
  (rows.zip annees).filterMap (fun ra =>
    if ra.2 = some year then some (toStagingRow ra.1 ra.2) else none)

/-! ## Entry points' year resolution (staging_loader.main / facts_loader.main) -/

/-- Python's int() on a string: an optional sign followed by digits
(none = ValueError). -/
def pyInt (s : String) : Option Int :=
  match s.toList with
  | [] => none
  | c :: cs =>
    if c = '+' then (if isAllDigits cs then some (digitsToNat cs : Int) else none)
    else if c = '-' then (if isAllDigits cs then some (-(digitsToNat cs : Int)) else none)
    else if isAllDigits (c :: cs) then some (digitsToNat (c :: cs) : Int)
    else none

/-- staging_loader.main's year resolution: y = int(os.getenv("YEAR",
year if year is not None else 2022)).  The environment variable wins
over the argument; the result is none when int() raises on it. -/
def stagingResolveYear (envYear : Option String) (year : Option Int) : Option Int :=
  match envYear with
  | some s => pyInt s
  | none =>
    match year with
    | some y => some y
    | none => some 2022

/-- facts_loader.main's year resolution: y = year if year is not None
else (int(y_env) if y_env else None).  The argument wins over the
environment variable; an unset or empty YEAR means None (all years);
the outer none means int() raised. -/
def factsResolveYear (envYear : Option String) (year : Option Int) : Option (Option Int) :=
  match year with
  | some y => some (some y)
  | none =>
    match envYear with
    | some s => if s = "" then some none else (pyInt s).map some
    | none => some none

/-! ## Auxiliary definitions used by the theorems -/

/-- COALESCE of two nullable values. -/
def coalesce {α : Type} (a b : Option α) : Option α :=
  match a with
  | some v => some v
  | none => b

/-- The status string a step outcome makes _run_step record. -/
def statusOf (o : Except String Unit) : String :=
  match o with
  | .ok _ => "OK"
  | .error _ => "KO"

/-- The message a step outcome makes _run_step record. -/
def msgOf (o : Except String Unit) : Option String :=
  match o with
  | .ok _ => none
  | .error e => some e

/-- Modelled from the claim's words (C5): per-value year coercion — if
the value parses as a calendar date take its year component, otherwise
parse it as a plain integer. -/
def coerceYearCellSpec (c : YearCell) : Option Int :=
  match c.dateYear with
  | some y => some y
  | none => c.numValue

/-- A raw row with the given annee cell and a fixed payload. -/
def rawRowWithYear (c : YearCell) : RawRow :=
  ⟨c, "Medecins", "76", "Occitanie", "31", "Haute-Garonne", "30-39",
   "30 a 39 ans", "hommes", ⟨none⟩, ⟨none⟩, "", "", ""⟩

/-- A step module with def main(year=None) whose body always raises
TypeError. -/
def alwaysTypeErrorMain : PyMain :=
  ⟨.optionalArg, fun _ => .typeError⟩

/-- A staging row that passes the shared staging filter, with the
Corsican department code 2A. -/
def sampleStagingRow : StagingRow :=
  ⟨some 2022, "Medecins", "94", "Corse", "2A", "Corse-du-Sud", "30-39",
   "30 a 39 ans", "hommes", some 120, some 5, "", "", ""⟩

/-- A staging row that fails the shared staging filter on every
component (unknown region, unknown department, all-ages age band,
non-binary sex). -/
def excludedStagingRow : StagingRow :=
  ⟨some 2022, "Medecins", "99", "Inconnue", "999", "Inconnu", "tout_age",
   "Tous ages", "ensemble", none, none, "", "", ""⟩

/-! ## Auxiliary predicate for the staging upsert proofs -/

/-- A batch row r is settled in a staging table t when t holds a row
with r's natural key and every such row already carries r's effectif
and densite. -/
def settled (r : StagingRow) (t : List StagingRow) : Prop :=
  (∃ x ∈ t, x.key = r.key) ∧
  ∀ x ∈ t, x.key = r.key → x.effectif = r.effectif ∧ x.densite = r.densite

end MedDemo

namespace MedDemo

/-! ## Theorems -/

theorem update_key_eq (x r : StagingRow) :
    ({ x with effectif := r.effectif, densite := r.densite } : StagingRow).key = x.key := rfl

theorem update_eq_self (x r : StagingRow) (he : x.effectif = r.effectif)
    (hd : x.densite = r.densite) :
    ({ x with effectif := r.effectif, densite := r.densite } : StagingRow) = x := by
  rw [← he, ← hd]

theorem upsertRow_of_settled (r : StagingRow) (t : List StagingRow) (h : settled r t) :
    upsertRow t r = t := by
  obtain ⟨⟨w, hw, hwk⟩, hall⟩ := h
  unfold upsertRow
  rw [if_pos (by simp only [List.any_eq_true, decide_eq_true_eq]; exact ⟨w, hw, hwk⟩)]
  have hmap : ∀ x ∈ t,
      (if x.key = r.key then
        ({ x with effectif := r.effectif, densite := r.densite } : StagingRow)
      else x) = x := by
    intro x hx
    by_cases hk : x.key = r.key
    · rw [if_pos hk]
      exact update_eq_self x r (hall x hx hk).1 (hall x hx hk).2
    · rw [if_neg hk]
  calc t.map _ = t.map id := List.map_congr_left hmap
    _ = t := List.map_id t

theorem settled_upsertRow_self (r : StagingRow) (t : List StagingRow) :
    settled r (upsertRow t r) := by
  unfold upsertRow
  by_cases h : ∃ x ∈ t, x.key = r.key
  · rw [if_pos (by simp only [List.any_eq_true, decide_eq_true_eq]; exact h)]
    obtain ⟨w, hw, hwk⟩ := h
    constructor
    · exact ⟨{ w with effectif := r.effectif, densite := r.densite },
        List.mem_map.mpr ⟨w, hw, by simp [hwk]⟩, hwk⟩
    · intro x hx hk
      rw [List.mem_map] at hx
      obtain ⟨y, _, rfl⟩ := hx
      by_cases hyk : y.key = r.key
      · rw [if_pos hyk]
        exact ⟨rfl, rfl⟩
      · rw [if_neg hyk] at hk ⊢
        exact absurd hk hyk
  · rw [if_neg (by simp only [List.any_eq_true, decide_eq_true_eq]; exact h)]
    constructor
    · exact ⟨r, by simp, rfl⟩
    · intro x hx hk
      rcases List.mem_append.mp hx with hxt | hxr
      · exact absurd ⟨x, hxt, hk⟩ h
      · rw [List.mem_singleton.mp hxr]
        exact ⟨rfl, rfl⟩

theorem settled_upsertRow_other (r q : StagingRow) (t : List StagingRow)
    (hne : q.key ≠ r.key) (h : settled r t) : settled r (upsertRow t q) := by
  obtain ⟨⟨w, hw, hwk⟩, hall⟩ := h
  unfold upsertRow
  by_cases hq : t.any (fun x => x.key = q.key)
  · rw [if_pos hq]
    have hwq : ¬ w.key = q.key := fun hcon => hne (hwk ▸ hcon.symm)
    constructor
    · exact ⟨w, List.mem_map.mpr ⟨w, hw, by simp [hwq]⟩, hwk⟩
    · intro x hx hk
      rw [List.mem_map] at hx
      obtain ⟨y, hy, rfl⟩ := hx
      by_cases hyq : y.key = q.key
      · rw [if_pos hyq] at hk
        rw [update_key_eq, hyq] at hk
        exact absurd hk hne
      · rw [if_neg hyq] at hk ⊢
        exact hall y hy hk
  · rw [if_neg hq]
    constructor
    · exact ⟨w, List.mem_append_left _ hw, hwk⟩
    · intro x hx hk
      rcases List.mem_append.mp hx with hxt | hxr
      · exact hall x hxt hk
      · rw [List.mem_singleton.mp hxr] at hk
        exact absurd hk hne

theorem settled_foldl (r : StagingRow) (rows : List StagingRow) :
    ∀ t : List StagingRow, (∀ q ∈ rows, q.key ≠ r.key) → settled r t →
      settled r (rows.foldl upsertRow t) := by
  induction rows with
  | nil => intro t _ h; exact h
  | cons a as ih =>
    intro t hne h
    rw [List.foldl_cons]
    exact ih (upsertRow t a) (fun q hq => hne q (List.mem_cons_of_mem a hq))
      (settled_upsertRow_other r a t (hne a (List.mem_cons_self a as)) h)

theorem foldl_settles (rows : List StagingRow) :
    ∀ t : List StagingRow, (rows.map StagingRow.key).Nodup →
      ∀ r ∈ rows, settled r (rows.foldl upsertRow t) := by
  induction rows with
  | nil => intro t _ r hr; exact absurd hr (List.not_mem_nil r)
  | cons a as ih =>
    intro t hnd r hr
    rw [List.map_cons, List.nodup_cons] at hnd
    rw [List.foldl_cons]
    rcases List.mem_cons.mp hr with rfl | hras
    · refine settled_foldl r as (upsertRow t r) ?_ (settled_upsertRow_self r t)
      intro q hq hcon
      exact hnd.1 (hcon ▸ List.mem_map_of_mem StagingRow.key hq)
    · exact ih (upsertRow t a) hnd.2 r hras

theorem foldl_of_settled (rows : List StagingRow) (t : List StagingRow)
    (h : ∀ r ∈ rows, settled r t) : rows.foldl upsertRow t = t := by
  induction rows with
  | nil => rfl
  | cons a as ih =>
    rw [List.foldl_cons, upsertRow_of_settled a t (h a (List.mem_cons_self a as))]
    exact ih (fun r hr => h r (List.mem_cons_of_mem a hr))

/-- C1: the Staging Store upsert is idempotent: running
upsert_to_staging a second time with the identical batch and the same
target year leaves the durable staging table exactly as the first run
left it (same rows, hence same row count and contents): natural-key
conflicts overwrite effectif and densite instead of appending. -/
theorem C1_staging_upsert_idempotent (table df : List StagingRow) (year : Int) :
    runUpsertStaging (runUpsertStaging table df year) df year =
      runUpsertStaging table df year := by
  unfold runUpsertStaging upsert_to_staging
  by_cases hemp : df.isEmpty
  · simp [hemp]
  · by_cases hnd : ((df.filter (fun r => r.annee = some year)).map StagingRow.key).Nodup
    · simp only [hemp, Bool.false_eq_true, if_false, hnd, if_true]
      exact foldl_of_settled _ _
        (foldl_settles (df.filter (fun r => r.annee = some year)) table hnd)
    · simp [hemp, hnd]

/-- C7: every executed step emits exactly one run record (the run log
grows by exactly the one record of this step), with status "OK" and no
message on success, status "KO" and the error message on failure; the
step's exception propagates out of _run_step exactly when stop_on_fail
is set. -/
theorem C7_run_step_logs_once (runLog : List RunRecord) (title : String)
    (outcome : Except String Unit) (stop_on_fail : Bool) :
    (run_step runLog title outcome stop_on_fail).1 =
      runLog ++ [⟨"pro_sante", title, statusOf outcome, none, msgOf outcome⟩] ∧
    (run_step runLog title outcome stop_on_fail).1.length = runLog.length + 1 ∧
    (run_step runLog title outcome stop_on_fail).2 =
      (if stop_on_fail then outcome else .ok ()) := by
  cases outcome <;> cases stop_on_fail <;>
    simp [run_step, log_run, statusOf, msgOf]

/-- C9 counterexample: a step module whose main accepts an optional
year argument (so both call shapes are accepted) but whose body raises
TypeError is dispatched with the year, caught, and then executed a
second time by the no-argument fallback: the body runs twice, not
exactly once as the claim states. -/
theorem C9_counterexample :
    (call_module_main alwaysTypeErrorMain 2022).1 = [some 2022, none] ∧
    (call_module_main alwaysTypeErrorMain 2022).1.length ≠ 1 := by
  exact ⟨rfl, by decide⟩

/-- C9 amended: the dispatcher calls main(year) exactly once when the
step's main accepts a year parameter, and main() exactly once (after
the call-time TypeError of passing year to a zero-argument main) when
it accepts none — except that a main with an optional year parameter
whose body itself raises TypeError has its body executed a second time
by the no-argument fallback. -/
theorem C9_dispatch_amended (m : PyMain) (year : Int) :
    (m.arity = .noArg → (call_module_main m year).1 = [none]) ∧
    (m.arity = .requiresArg → (call_module_main m year).1 = [some year]) ∧
    (m.arity = .optionalArg → m.body (some year) ≠ .typeError →
      (call_module_main m year).1 = [some year]) ∧
    (m.arity = .optionalArg → m.body (some year) = .typeError →
      (call_module_main m year).1 = [some year, none]) := by
  obtain ⟨ar, body⟩ := m
  refine ⟨fun h => ?_, fun h => ?_, fun h hb => ?_, fun h hb => ?_⟩
  · subst h; rfl
  · subst h
    simp only [call_module_main]
    cases body (some year) <;> rfl
  · subst h
    simp only [call_module_main]
    cases hbv : body (some year)
    · rfl
    · exact absurd hbv hb
    · rfl
  · subst h
    simp only at hb
    simp only [call_module_main, hb]

/-- C9 witness: concrete dispatches of the amended statement — a
main(year) module runs once with the year, a main() module runs once
without it. -/
theorem C9_dispatch_amended_witness :
    (call_module_main ⟨.requiresArg, fun _ => .ok⟩ 7).1 = [some 7] ∧
    (call_module_main ⟨.noArg, fun _ => .ok⟩ 7).1 = [none] ∧
    (call_module_main ⟨.optionalArg, fun _ => .ok⟩ 7).1 = [some 7] :=
  ⟨(C9_dispatch_amended ⟨.requiresArg, fun _ => .ok⟩ 7).2.1 rfl,
   (C9_dispatch_amended ⟨.noArg, fun _ => .ok⟩ 7).1 rfl,
   (C9_dispatch_amended ⟨.optionalArg, fun _ => .ok⟩ 7).2.2.1 rfl (by decide)⟩

/-- C10: the two entry points resolve the year with opposite
precedence: staging_loader.main lets the YEAR environment variable win
over its argument (falling back to the argument, then to 2022), while
facts_loader.main lets the argument win over YEAR (falling back to the
parsed YEAR, then to None = all years); when both are set and differ
the two steps operate on different years. -/
theorem C10_year_resolution_opposite (s : String) (e a : Int)
    (hs : pyInt s = some e) (hne : e ≠ a) :
    stagingResolveYear (some s) (some a) = some e ∧
    stagingResolveYear none (some a) = some a ∧
    stagingResolveYear none none = some 2022 ∧
    factsResolveYear (some s) (some a) = some (some a) ∧
    (s ≠ "" → factsResolveYear (some s) none = some (some e)) ∧
    factsResolveYear none none = some none ∧
    stagingResolveYear (some s) (some a) ≠ some a := by
  refine ⟨by simp [stagingResolveYear, hs], rfl, rfl, rfl, ?_, rfl, ?_⟩
  · intro hse
    simp [factsResolveYear, hse, hs]
  · simp only [stagingResolveYear, hs]
    intro hcon
    exact hne (Option.some.inj hcon)

/-- C10 witness: with YEAR=2021 in the environment and 2022 as the
argument, staging resolves 2021 and facts resolves 2022. -/
theorem C10_year_resolution_opposite_witness :
    stagingResolveYear (some "2021") (some 2022) = some 2021 ∧
    factsResolveYear (some "2021") (some 2022) = some (some 2022) ∧
    factsResolveYear (some "2021") none = some (some 2021) :=
  ⟨(C10_year_resolution_opposite "2021" 2021 2022 (by decide) (by decide)).1,
   (C10_year_resolution_opposite "2021" 2021 2022 (by decide) (by decide)).2.2.2.1,
   (C10_year_resolution_opposite "2021" 2021 2022 (by decide) (by decide)).2.2.2.2.1
     (by decide)⟩

theorem coalesce_none {α : Type} (a : Option α) : coalesce a none = a := by
  cases a <;> rfl

theorem log_volume_find (tbl : List VolumeRow) (p e : String) (d : DateV) (v : Int)
    (mn mx : Option Int) (w x : String) :
    (log_volume tbl p e d v mn mx w x).find? (fun r => r.key = ⟨p, e, d, w⟩) =
      some ⟨⟨p, e, d, w⟩, v,
        coalesce mn ((tbl.find? (fun r => r.key = ⟨p, e, d, w⟩)).bind VolumeRow.expected_min),
        coalesce mx ((tbl.find? (fun r => r.key = ⟨p, e, d, w⟩)).bind VolumeRow.expected_max),
        x⟩ := by
  induction tbl with
  | nil =>
    simp [log_volume, List.find?, coalesce_none]
  | cons hd t ih =>
    by_cases hk : hd.key = (⟨p, e, d, w⟩ : VolumeKey)
    · have hany : ((hd :: t).any fun r => r.key = (⟨p, e, d, w⟩ : VolumeKey)) = true := by
        simp [hk]
      obtain ⟨hdk, hdv, hdmin, hdmax, hdx⟩ := hd
      simp only at hk
      subst hk
      simp only [log_volume, hany, if_true, List.map_cons, if_pos, List.find?_cons]
      cases mn <;> cases mx <;> simp [coalesce, List.find?]
    · by_cases ht : (t.any fun r => r.key = (⟨p, e, d, w⟩ : VolumeKey)) = true
      · have hany : ((hd :: t).any fun r => r.key = (⟨p, e, d, w⟩ : VolumeKey)) = true := by
          simp [List.any_cons, ht]
        have hlhs : log_volume (hd :: t) p e d v mn mx w x =
            hd :: (log_volume t p e d v mn mx w x) := by
          simp only [log_volume, hany, ht, if_true, List.map_cons]
          rw [if_neg hk]
        rw [hlhs, List.find?_cons_of_neg _ (by simp [hk]),
          List.find?_cons_of_neg _ (by simp [hk]), ih]
      · have hany : ((hd :: t).any fun r => r.key = (⟨p, e, d, w⟩ : VolumeKey)) = false := by
          simp [List.any_cons, hk]
          simpa using ht
        have hlhs : log_volume (hd :: t) p e d v mn mx w x =
            hd :: (log_volume t p e d v mn mx w x) := by
          simp only [log_volume, hany, ht, if_false, Bool.false_eq_true, List.cons_append]
        rw [hlhs, List.find?_cons_of_neg _ (by simp [hk]),
          List.find?_cons_of_neg _ (by simp [hk]), ih]

/-- C6: calling log_volume twice for the same (pipeline, entity,
as_of_date, agg_window) key, first with expected bounds set and then
with both omitted, leaves expected_min and expected_max at their
previously stored values while the observed volume (and the extra
payload) are overwritten by the second call. -/
theorem C6_log_volume_preserves_bounds (tbl : List VolumeRow) (p e : String) (d : DateV)
    (v1 v2 : Int) (mn mx : Int) (w x1 x2 : String) :
    (log_volume (log_volume tbl p e d v1 (some mn) (some mx) w x1)
        p e d v2 none none w x2).find? (fun r => r.key = ⟨p, e, d, w⟩) =
      some ⟨⟨p, e, d, w⟩, v2, some mn, some mx, x2⟩ := by
  rw [log_volume_find, log_volume_find]
  simp [coalesce]

theorem pgTextToInt_digits (s : String) (h : isAllDigits s.toList = true) :
    pgTextToInt s = some (digitsToNat s.toList : Int) := by
  unfold pgTextToInt
  cases hcl : s.toList with
  | nil => rw [hcl] at h; exact absurd h (by decide)
  | cons c cs =>
    rw [hcl] at h
    have hcd : c.isDigit = true := by
      simp only [isAllDigits, List.all_cons, Bool.and_eq_true] at h
      exact h.2.1
    have hplus : ¬ c = '+' := fun hcc => by subst hcc; exact absurd hcd (by decide)
    have hminus : ¬ c = '-' := fun hcc => by subst hcc; exact absurd hcd (by decide)
    show (if c = '+' then (if isAllDigits cs then some (digitsToNat cs : Int) else none)
      else if c = '-' then (if isAllDigits cs then some (-(digitsToNat cs : Int)) else none)
      else if isAllDigits (c :: cs) then some (digitsToNat (c :: cs) : Int) else none) =
      some (digitsToNat (c :: cs) : Int)
    rw [if_neg hplus, if_neg hminus, if_pos h]

/-- C3 counterexample: the claim that the Fact Resolver's department
normalization equals the Dimension Conformer's ("any other non-numeric
code yields no join key rather than an error") is false: on the code
"ZZ" the Dimension Conformer derives no id (NULL, row dropped), but the
Fact Resolver's NULLIF(departement,'')::int raises a cast error instead
of yielding no join key. -/
theorem C3_counterexample :
    dep_id_dims "ZZ" = none ∧ dep_norm_facts "ZZ" = none ∧
    dep_norm_facts "ZZ" ≠ some (dep_id_dims "ZZ") := by
  refine ⟨by decide, by decide, by decide⟩

/-- C3 amended: the two department-id normalizations agree exactly on
the codes the dataset is supposed to contain — '2A', '2B', the empty
string, and all-digit codes (where both pass the numeric value
through); on any other code the Fact Resolver raises a cast error where
the Dimension Conformer yields no join key, so the two are not equal as
total functions. -/
theorem C3_dep_norm_agree_amended (code : String)
    (h : code = "2A" ∨ code = "2B" ∨ code = "" ∨ isAllDigits code.toList = true) :
    dep_norm_facts code = some (dep_id_dims code) := by
  rcases h with rfl | rfl | rfl | hd
  · rfl
  · rfl
  · rfl
  · have h2a : ¬ code = "2A" := fun hc => by subst hc; exact absurd hd (by decide)
    have h2b : ¬ code = "2B" := fun hc => by subst hc; exact absurd hd (by decide)
    have hne : ¬ code = "" := fun hc => by subst hc; exact absurd hd (by decide)
    unfold dep_norm_facts dep_id_dims
    rw [if_neg h2a, if_neg h2b, if_neg hne, if_neg h2a, if_neg h2b, if_pos hd,
      pgTextToInt_digits code hd]
    rfl

/-- C3 witness: the two normalizations agree on a numeric code and on a
reserved Corsican code. -/
theorem C3_dep_norm_agree_amended_witness :
    dep_norm_facts "31" = some (dep_id_dims "31") ∧
    dep_norm_facts "2A" = some (dep_id_dims "2A") :=
  ⟨C3_dep_norm_agree_amended "31" (Or.inr (Or.inr (Or.inr (by decide)))),
   C3_dep_norm_agree_amended "2A" (Or.inl rfl)⟩

theorem dep_id_dims_digits (c : String) (h : isAllDigits c.toList = true) :
    dep_id_dims c = some (digitsToNat c.toList : Int) := by
  have h2a : ¬ c = "2A" := fun hc => by subst hc; exact absurd h (by decide)
  have h2b : ¬ c = "2B" := fun hc => by subst hc; exact absurd h (by decide)
  unfold dep_id_dims
  rw [if_neg h2a, if_neg h2b, if_pos h]

/-- C2 counterexample: the sentinel ids are not distinct from every
numeric department code: the all-digit code "101" derives the same id
as the reserved code "2A". -/
theorem C2_counterexample :
    isAllDigits "101".toList = true ∧ dep_id_dims "101" = some 101 ∧
    dep_id_dims "101" = dep_id_dims "2A" := by
  refine ⟨by decide, by decide, by decide⟩

theorem upsertDeptRow_ids (t : List (Int × String × Nat)) (v : Int × String × Nat) :
    ∀ i ∈ (upsertDeptRow t v).map Prod.fst, i ∈ t.map Prod.fst ∨ i = v.1 := by
  intro i hi
  unfold upsertDeptRow at hi
  by_cases h : t.any (fun p => p.1 = v.1)
  · rw [if_pos h] at hi
    obtain ⟨y, hy, rfl⟩ := List.mem_map.mp hi
    obtain ⟨q, hq, rfl⟩ := List.mem_map.mp hy
    by_cases hq1 : q.1 = v.1
    · rw [if_pos hq1]
      exact Or.inr rfl
    · rw [if_neg hq1]
      exact Or.inl (List.mem_map_of_mem Prod.fst hq)
  · rw [if_neg h, List.map_append, List.mem_append] at hi
    rcases hi with hi | hi
    · exact Or.inl hi
    · exact Or.inr (List.mem_singleton.mp hi)

theorem foldl_upsertDeptRow_ids (vals : List (Int × String × Nat)) :
    ∀ (t : List (Int × String × Nat)) (i : Int),
      i ∈ (vals.foldl upsertDeptRow t).map Prod.fst →
      i ∈ t.map Prod.fst ∨ i ∈ vals.map Prod.fst := by
  induction vals with
  | nil => intro t i hi; exact Or.inl hi
  | cons a as ih =>
    intro t i hi
    rw [List.foldl_cons] at hi
    rcases ih (upsertDeptRow t a) i hi with h | h
    · rcases upsertDeptRow_ids t a i h with h2 | h2
      · exact Or.inl h2
      · refine Or.inr ?_
        rw [List.map_cons, h2]
        exact List.mem_cons_self a.1 (as.map Prod.fst)
    · refine Or.inr ?_
      rw [List.map_cons]
      exact List.mem_cons_of_mem a.1 h

theorem deptSourceRows_ids (year : Option Int) (staging : List StagingRow) (d : DimTables) :
    ∀ i ∈ (deptSourceRows year staging d).map Prod.fst,
      ∃ r ∈ staging.filter (stagingFilterDims year),
        dep_id_dims r.departement = some i := by
  intro i hi
  obtain ⟨trip, htrip, rfl⟩ := List.mem_map.mp hi
  unfold deptSourceRows at htrip
  rw [List.mem_dedup] at htrip
  obtain ⟨v, hv, hg⟩ := List.mem_filterMap.mp htrip
  obtain ⟨r, hr, rfl⟩ := List.mem_map.mp hv
  refine ⟨r, hr, ?_⟩
  simp only [Option.bind_eq_bind] at hg
  cases hdi : dep_id_dims r.departement with
  | none =>
    rw [hdi] at hg
    exact absurd hg (by simp)
  | some j =>
    rw [hdi] at hg
    cases hreg : (dimRegionsAfter year staging d).find? (fun p => p.2 = r.libelle_region) with
    | none =>
      rw [hreg] at hg
      exact absurd hg (by simp)
    | some reg =>
      rw [hreg] at hg
      have htripeq : (j, r.libelle_departement, reg.1) = trip := by simpa using hg
      rw [← htripeq]

theorem except_bind_ok {α β : Type} {x : Except String α} {f : α → Except String β} {b : β}
    (h : x >>= f = .ok b) : ∃ a, x = .ok a ∧ f a = .ok b := by
  cases x with
  | error e =>
    simp only [bind, Except.bind] at h
    exact Except.noConfusion h
  | ok a =>
    refine ⟨a, rfl, ?_⟩
    simpa [bind, Except.bind] using h

theorem populate_dimensions_departements (year : Option Int) (staging : List StagingRow)
    (d d2 : DimTables) (h : populate_dimensions year staging d = .ok d2) :
    upsertDepts d.departements (deptSourceRows year staging d) = .ok d2.departements := by
  simp only [populate_dimensions] at h
  obtain ⟨tr, htr, h2⟩ := except_bind_ok h
  obtain ⟨dep, hdep, h3⟩ := except_bind_ok h2
  rw [hdep]
  have h4 : Except.ok _ = Except.ok d2 := h3
  injection h4 with h5
  rw [← h5]

/-- C2 amended: the Dimension Conformer's derived department id is 101
for '2A', 102 for '2B', the integer value of an all-digit code, and
NULL otherwise (so a non-numeric, non-reserved code never reaches the
Department table: every id in the table after conformance either was
already there or derives from a code the mapping accepts); the two
sentinels are distinct from each other and from every numeric code
except the all-digit codes of value 101 or 102 (such as "101"), which
collide with the sentinels. -/
theorem C2_department_mapping_amended :
    (dep_id_dims "2A" = some 101 ∧ dep_id_dims "2B" = some 102 ∧
      dep_id_dims "2A" ≠ dep_id_dims "2B") ∧
    (∀ c : String, isAllDigits c.toList = true →
      dep_id_dims c = some (digitsToNat c.toList : Int)) ∧
    (∀ c : String, c ≠ "2A" → c ≠ "2B" → isAllDigits c.toList = false →
      dep_id_dims c = none) ∧
    (∀ c : String, isAllDigits c.toList = true → (digitsToNat c.toList : Int) ≠ 101 →
      (digitsToNat c.toList : Int) ≠ 102 →
      dep_id_dims c ≠ dep_id_dims "2A" ∧ dep_id_dims c ≠ dep_id_dims "2B") ∧
    (∀ (year : Option Int) (staging : List StagingRow) (d : DimTables) (i : Int),
      i ∈ (runPopulateDimensions year staging d).departements.map Prod.fst →
      i ∈ d.departements.map Prod.fst ∨
        ∃ r ∈ staging.filter (stagingFilterDims year),
          dep_id_dims r.departement = some i) := by
  refine ⟨⟨by decide, by decide, by decide⟩, dep_id_dims_digits, ?_, ?_, ?_⟩
  · intro c h2a h2b hd
    unfold dep_id_dims
    rw [if_neg h2a, if_neg h2b, if_neg (by simp only [hd]; decide)]
  · intro c hd h101 h102
    rw [dep_id_dims_digits c hd]
    constructor
    · intro hcon
      exact h101 (Option.some.inj (hcon.trans (by decide)))
    · intro hcon
      exact h102 (Option.some.inj (hcon.trans (by decide)))
  · intro year staging d i hi
    unfold runPopulateDimensions at hi
    cases hpop : populate_dimensions year staging d with
    | error e =>
      rw [hpop] at hi
      exact Or.inl hi
    | ok d2 =>
      rw [hpop] at hi
      have hdep := populate_dimensions_departements year staging d d2 hpop
      unfold upsertDepts at hdep
      by_cases hnd : ((deptSourceRows year staging d).map Prod.fst).Nodup
      · rw [if_pos hnd] at hdep
        rw [← Except.ok.inj hdep] at hi
        rcases foldl_upsertDeptRow_ids (deptSourceRows year staging d) d.departements i hi
          with h | h
        · exact Or.inl h
        · exact Or.inr (deptSourceRows_ids year staging d i h)
      · rw [if_neg hnd] at hdep
        exact Except.noConfusion hdep

/-- C2 witness: concrete instances of the amended mapping — the numeric
passthrough at "31", the drop at "ZZ", sentinel distinctness from "31",
and the Department-table purity after conforming one concrete 2A row
from empty dimension tables. -/
theorem C2_department_mapping_amended_witness :
    dep_id_dims "31" = some 31 ∧
    dep_id_dims "ZZ" = none ∧
    dep_id_dims "31" ≠ dep_id_dims "2A" ∧
    (101 ∈ (⟨[], [], [], [], [], []⟩ : DimTables).departements.map Prod.fst ∨
      ∃ r ∈ [sampleStagingRow].filter (stagingFilterDims (some 2022)),
        dep_id_dims r.departement = some 101) := by
  refine ⟨?_, ?_, ?_, ?_⟩
  · exact (C2_department_mapping_amended.2.1 "31" (by decide)).trans (by decide)
  · exact C2_department_mapping_amended.2.2.1 "ZZ" (by decide) (by decide) (by decide)
  · exact (C2_department_mapping_amended.2.2.2.1 "31" (by decide) (by decide) (by decide)).1
  · exact C2_department_mapping_amended.2.2.2.2 (some 2022) [sampleStagingRow]
      ⟨[], [], [], [], [], []⟩ 101 (by decide)

/-- C4: the staging filter of the Dimension Conformer is the very same
predicate as the staging filter of the Fact Resolver, and a staging row
failing it — wherever it sits in the staging table — contributes to
neither the dimension tables nor the fact table: both loaders compute
exactly what they compute without that row. -/
theorem C4_filter_consistency :
    (∀ (year : Option Int) (r : StagingRow),
      stagingFilterDims year r = stagingFilterFacts year r) ∧
    (∀ (year : Option Int) (pre post : List StagingRow) (r : StagingRow) (d : DimTables)
      (facts : List FactRow), stagingFilterDims year r = false →
      populate_dimensions year (pre ++ r :: post) d =
        populate_dimensions year (pre ++ post) d ∧
      load_facts year (pre ++ r :: post) d facts =
        load_facts year (pre ++ post) d facts) := by
  constructor
  · intro year r
    rfl
  · intro year pre post r d facts h
    have hF : stagingFilterFacts year r = false := h
    have hfilD : (pre ++ r :: post).filter (stagingFilterDims year) =
        (pre ++ post).filter (stagingFilterDims year) := by
      simp [List.filter_append, List.filter_cons, h]
    have hfilF : (pre ++ r :: post).filter (stagingFilterFacts year) =
        (pre ++ post).filter (stagingFilterFacts year) := by
      simp [List.filter_append, List.filter_cons, hF]
    constructor
    · simp only [populate_dimensions, deptSourceRows, dimRegionsAfter, hfilD]
    · simp only [load_facts, hfilF]

/-- C4 witness: a concrete row failing the filter (unknown region and
department, all-ages band, non-binary sex) is excluded by the filter
and contributes to neither loader's result. -/
theorem C4_filter_consistency_witness :
    stagingFilterDims (some 2022) excludedStagingRow = false ∧
    populate_dimensions (some 2022) ([] ++ excludedStagingRow :: [])
        ⟨[], [], [], [], [], []⟩ =
      populate_dimensions (some 2022) ([] ++ []) ⟨[], [], [], [], [], []⟩ ∧
    load_facts (some 2022) ([] ++ excludedStagingRow :: []) ⟨[], [], [], [], [], []⟩ [] =
      load_facts (some 2022) ([] ++ []) ⟨[], [], [], [], [], []⟩ [] :=
  ⟨by decide, C4_filter_consistency.2 (some 2022) [] [] excludedStagingRow
    ⟨[], [], [], [], [], []⟩ [] (by decide)⟩

theorem prepare_eq_filterMap (rows : List RawRow) (year : Int) (f : RawRow → Option Int) :
    (rows.zip (rows.map f)).filterMap (fun ra =>
        if ra.2 = some year then some (toStagingRow ra.1 ra.2) else none) =
      rows.filterMap (fun r =>
        if f r = some year then some (toStagingRow r (some year)) else none) := by
  induction rows with
  | nil => rfl
  | cons a as ih =>
    simp only [List.map_cons, List.zip_cons_cons, List.filterMap_cons]
    by_cases h : f a = some year
    · rw [if_pos h, if_pos h, h, ih]
    · rw [if_neg h, if_neg h, ih]

/-- C5 counterexample: the year coercion is not per-value.  In a column
where some other value parses as a calendar date, a value that does not
parse as a date but does parse as the plain integer 2022 is coerced to
null by the column-wide date branch and dropped, although the claim
says it is parsed as a plain integer and (equalling the target year)
survives the filter. -/
theorem C5_counterexample :
    prepare_dataframe
        [rawRowWithYear ⟨some 2021, none⟩, rawRowWithYear ⟨none, some 2022⟩] 2022 = [] ∧
    coerceYearCellSpec ⟨none, some 2022⟩ = some 2022 := by
  refine ⟨by decide, rfl⟩

/-- C5 amended: the year coercion branches per column, not per value:
when at least one value of the column parses as a calendar date, every
value is coerced to its date's year component (values that are not
dates become null even if they parse as integers); only when no value
parses as a date is the column parsed as plain integers; either way,
unparseable values become null, null never equals the target year, and
every surviving row has year equal to the target year. -/
theorem C5_prepare_dataframe_amended (rows : List RawRow) (year : Int) :
    (∀ r ∈ prepare_dataframe rows year, r.annee = some year) ∧
    ((rows.map (fun r => r.annee.dateYear)).any Option.isSome = true →
      prepare_dataframe rows year = rows.filterMap (fun r =>
        if r.annee.dateYear = some year then some (toStagingRow r (some year)) else none)) ∧
    ((rows.map (fun r => r.annee.dateYear)).any Option.isSome = false →
      prepare_dataframe rows year = rows.filterMap (fun r =>
        if r.annee.numValue = some year then some (toStagingRow r (some year)) else none)) := by
  refine ⟨?_, ?_, ?_⟩
  · intro r hr
    unfold prepare_dataframe at hr
    obtain ⟨ra, _, hra⟩ := List.mem_filterMap.mp hr
    by_cases h : ra.2 = some year
    · rw [if_pos h] at hra
      rw [← Option.some.inj hra]
      exact h
    · rw [if_neg h] at hra
      exact Option.noConfusion hra
  · intro hmode
    simp only [prepare_dataframe, hmode, if_true]
    exact prepare_eq_filterMap rows year (fun r => r.annee.dateYear)
  · intro hmode
    simp only [prepare_dataframe, hmode, Bool.false_eq_true, if_false]
    exact prepare_eq_filterMap rows year (fun r => r.annee.numValue)

/-- C5 witness: a one-row column whose value parses as a date with year
2022 survives preparation for target year 2022 (date branch), and a
one-row column with only a plain integer 2022 survives via the numeric
branch; an unparseable value is dropped. -/
theorem C5_prepare_dataframe_amended_witness :
    prepare_dataframe [rawRowWithYear ⟨some 2022, none⟩] 2022 =
      [rawRowWithYear ⟨some 2022, none⟩].filterMap (fun r =>
        if r.annee.dateYear = some 2022 then some (toStagingRow r (some 2022)) else none) ∧
    prepare_dataframe [rawRowWithYear ⟨none, some 2022⟩] 2022 =
      [rawRowWithYear ⟨none, some 2022⟩].filterMap (fun r =>
        if r.annee.numValue = some 2022 then some (toStagingRow r (some 2022)) else none) ∧
    prepare_dataframe [rawRowWithYear ⟨none, none⟩] 2022 =
      [rawRowWithYear ⟨none, none⟩].filterMap (fun r =>
        if r.annee.numValue = some 2022 then some (toStagingRow r (some 2022)) else none) :=
  ⟨(C5_prepare_dataframe_amended [rawRowWithYear ⟨some 2022, none⟩] 2022).2.1 (by decide),
   (C5_prepare_dataframe_amended [rawRowWithYear ⟨none, some 2022⟩] 2022).2.2 (by decide),
   (C5_prepare_dataframe_amended [rawRowWithYear ⟨none, none⟩] 2022).2.2 (by decide)⟩

/-- C8: calling the Staging Store upsert with an empty batch is a no-op
for every target year: it returns successfully, executes no store
statement, and leaves the durable staging table unchanged. -/
theorem C8_empty_batch_noop (table : List StagingRow) (year : Int) :
    upsert_to_staging table [] year = .ok (table, []) := rfl

end MedDemo
